import Mathlib

/-!
Shallow embedding of the SAF dashboard (src/saf.py) and verification of the
frozen claims about it.

Modelling conventions:
  * a pandas row of `saf_emissions_data` becomes the structure `SAFRecord`;
    numeric columns are rationals, string columns are `String`, and the
    decoded `composition` dict is an insertion-ordered association list;
  * `df[df['fuel_type'] == selected_fuel]` becomes `filterFuel`;
  * each Dash callback becomes a pure function from the selected fuel and the
    record list to a chart-specification structure mirroring the plotly
    figure it builds (trace data arrays plus layout metadata);
  * `filtered_df['composition'].iloc[0]`, which raises `IndexError` on an
    empty filter result, is modelled by an `Option` result (`none` = raise);
  * `Series.mean()` on an empty series yields NaN in pandas, modelled as
    `none`.
-/

namespace SAF

/-- One row of the `saf_emissions_data` query result (src/saf.py lines 14-30),
with the `composition` column already decoded into a key/value mapping. -/
structure SAFRecord where
  fuel_type : String
  composition : List (String × ℚ)
  CO2_emission : ℚ
  NOx_emission : ℚ
  particulate_matter : ℚ
  combustion_efficiency : ℚ
  residue_formation : ℚ
  cost_per_unit_reduction : ℚ
  test_conditions : String
  thrust : ℚ
  range : ℚ
  payload_capacity : ℚ
  compliance_status : String
  deriving Repr, DecidableEq

/-- The filter `df[df['fuel_type'] == selected_fuel]` shared by every
data-driven callback. -/
def filterFuel (selected_fuel : String) (records : List SAFRecord) :
    List SAFRecord :=
  records.filter (fun r => r.fuel_type == selected_fuel)

/-- One `go.Bar` trace of the emissions figure. -/
structure BarTrace where
  x : List String
  y : List ℚ
  name : String
  marker_color : String
  deriving Repr, DecidableEq

/-- The figure returned by `update_emission_graph`. -/
structure EmissionFig where
  traces : List BarTrace
  barmode : String
  title : String
  deriving Repr, DecidableEq

/-- Embedding of `update_emission_graph` (src/saf.py lines 59-66): filter to
the selected fuel, then add three bar traces whose x-array is the
`test_conditions` column and whose y-arrays are the three emission columns. -/
def update_emission_graph (selected_fuel : String) (records : List SAFRecord) :
    EmissionFig :=
  let filtered_df := filterFuel selected_fuel records
  { traces :=
      [{ x := filtered_df.map (·.test_conditions),
         y := filtered_df.map (·.CO2_emission),
         name := "CO2 Emission (g/kg)", marker_color := "indianred" },
       { x := filtered_df.map (·.test_conditions),
         y := filtered_df.map (·.NOx_emission),
         name := "NOx Emission (g/kg)", marker_color := "lightsalmon" },
       { x := filtered_df.map (·.test_conditions),
         y := filtered_df.map (·.particulate_matter),
         name := "Particulate Matter (mg/kg)", marker_color := "lightblue" }],
    barmode := "group",
    title := "Emissions for " ++ selected_fuel ++ " Under Different Conditions" }

/-- The figure returned by `update_composition_pie`. -/
structure PieFig where
  names : List String
  values : List ℚ
  title : String
  hole : ℚ
  deriving Repr, DecidableEq

/-- Embedding of `update_composition_pie` (src/saf.py lines 75-84): filter to
the selected fuel and read `filtered_df['composition'].iloc[0]`.  `iloc[0]`
raises `IndexError` when the filter result is empty, hence the `Option`
result: `none` models the raised exception. -/
def update_composition_pie (selected_fuel : String)
    (records : List SAFRecord) : Option PieFig :=
  match filterFuel selected_fuel records with
  | [] => none
  | r :: _ =>
    some { names := r.composition.map Prod.fst,
           values := r.composition.map Prod.snd,
           title := "Chemical Composition of " ++ selected_fuel,
           hole := (3 : ℚ) / 10 }

/-- The figure returned by `update_efficiency_heatmap`. -/
structure HeatmapFig where
  x : List String
  y : List ℚ
  z : List ℚ
  title : String
  deriving Repr, DecidableEq

/-- Embedding of `update_efficiency_heatmap` (src/saf.py lines 91-100). -/
def update_efficiency_heatmap (selected_fuel : String)
    (records : List SAFRecord) : HeatmapFig :=
  let filtered_df := filterFuel selected_fuel records
  { x := filtered_df.map (·.test_conditions),
    y := filtered_df.map (·.combustion_efficiency),
    z := filtered_df.map (·.residue_formation),
    title := "Combustion Efficiency and Residue Formation for " ++
      selected_fuel }

/-- The figure returned by `update_lifecycle_sankey`. -/
structure SankeyFig where
  nodes : List String
  source : List ℕ
  target : List ℕ
  value : List ℕ
  title : String
  deriving Repr, DecidableEq

/-- Embedding of `update_lifecycle_sankey` (src/saf.py lines 107-120): a
fixed 5-node flow with mock link values; only the title mentions the
selected fuel. -/
def update_lifecycle_sankey (selected_fuel : String) : SankeyFig :=
  { nodes := ["Raw Material Extraction", "Production", "Transportation",
              "Combustion", "Total Emissions"],
    source := [0, 1, 2, 3],
    target := [1, 2, 3, 4],
    value := [30, 40, 20, 60],
    title := "Lifecycle Carbon Footprint for " ++ selected_fuel }

/-- The figure returned by `update_cost_emission_scatter`. -/
structure ScatterFig where
  x : List ℚ
  y : List ℚ
  size : List ℚ
  color : List ℚ
  title : String
  deriving Repr, DecidableEq

/-- Embedding of `update_cost_emission_scatter` (src/saf.py lines 127-138). -/
def update_cost_emission_scatter (selected_fuel : String)
    (records : List SAFRecord) : ScatterFig :=
  let filtered_df := filterFuel selected_fuel records
  { x := filtered_df.map (·.cost_per_unit_reduction),
    y := filtered_df.map (·.CO2_emission),
    size := filtered_df.map (·.NOx_emission),
    color := filtered_df.map (·.particulate_matter),
    title := "Cost vs. Emission Reduction for " ++ selected_fuel }

/-- Embedding of `pandas.Series.mean()`: the arithmetic mean of the series,
`NaN` (modelled as `none`) when the series is empty. -/
def seriesMean (xs : List ℚ) : Option ℚ :=
  if xs.isEmpty then none else some (xs.sum / (xs.length : ℚ))

/-- The figure returned by `update_flight_performance_radar`. -/
structure RadarFig where
  r : List (Option ℚ)
  theta : List String
  fill : String
  title : String
  deriving Repr, DecidableEq

/-- Embedding of `update_flight_performance_radar` (src/saf.py lines
145-155): the radar values are the means of the `thrust`, `range` and
`payload_capacity` columns over the filtered rows. -/
def update_flight_performance_radar (selected_fuel : String)
    (records : List SAFRecord) : RadarFig :=
  let filtered_df := filterFuel selected_fuel records
  { r := [seriesMean (filtered_df.map (·.thrust)),
          seriesMean (filtered_df.map (·.range)),
          seriesMean (filtered_df.map (·.payload_capacity))],
    theta := ["Thrust", "Range", "Payload Capacity"],
    fill := "toself",
    title := "Flight Performance for " ++ selected_fuel }

/-- The figure returned by `update_contrail_prediction_map`. -/
structure GeoFig where
  lat : List ℚ
  lon : List ℚ
  title : String
  deriving Repr, DecidableEq

/-- Embedding of `update_contrail_prediction_map` (src/saf.py lines 162-168):
`px.scatter_geo` is called with a title only, so the data arrays are empty
for every selection. -/
def update_contrail_prediction_map (selected_fuel : String) : GeoFig :=
  { lat := [], lon := [],
    title := "Contrail Formation Prediction for " ++ selected_fuel }

/-- Embedding of `Series.value_counts().get(key, 0)`: the number of
occurrences of `key` in the series. -/
def valueCountsGet (key : String) (xs : List String) : ℕ :=
  xs.countP (fun s => s == key)

/-- The figure returned by `update_compliance_dashboard` (a `go.Indicator`
gauge). -/
structure GaugeFig where
  mode : String
  value : ℕ
  title : String
  deriving Repr, DecidableEq

/-- Embedding of `update_compliance_dashboard` (src/saf.py lines 175-183):
filter to the selected fuel, take `value_counts()` of `compliance_status`
and show `.get('Compliant', 0)` on the gauge. -/
def update_compliance_dashboard (selected_fuel : String)
    (records : List SAFRecord) : GaugeFig :=
  let filtered_df := filterFuel selected_fuel records
  { mode := "gauge+number",
    value := valueCountsGet "Compliant"
      (filtered_df.map (·.compliance_status)),
    title := "Compliance Status for " ++ selected_fuel }

/-- Worker for `pdUnique`: `seen` collects the values already emitted, so
each value is kept at its first occurrence only. -/
def pdUniqueAux : List String → List String → List String
  | _, [] => []
  | seen, x :: xs =>
    if x ∈ seen then pdUniqueAux seen xs
    else x :: pdUniqueAux (x :: seen) xs

/-- Embedding of `pandas.Series.unique()`: distinct values in order of first
appearance. -/
def pdUnique (xs : List String) : List String := pdUniqueAux [] xs

/-- The `dcc.Dropdown` component of the layout. -/
structure Dropdown where
  options : List String
  value : String
  multi : Bool
  clearable : Bool
  deriving Repr, DecidableEq

/-- Embedding of the `fuel-dropdown` declaration (src/saf.py lines 36-42):
options are `df['fuel_type'].unique()`, the initial value is
`df['fuel_type'].unique()[0]` (an `IndexError`, i.e. `none`, on an empty
record set), `multi=False`, `clearable=False`. -/
def layoutDropdown (records : List SAFRecord) : Option Dropdown :=
  match pdUnique (records.map (·.fuel_type)) with
  | [] => none
  | x :: xs =>
    some { options := x :: xs, value := x, multi := false,
           clearable := false }

/-- Value expressions that can occur inside a stored composition dict text.
`num` is a numeric literal; `add` is a Python `+` expression on the operand
expressions — something `eval` evaluates but a literal parser rejects. -/
inductive VExpr where
  | num : ℚ → VExpr
  | add : VExpr → VExpr → VExpr
  deriving Repr, DecidableEq

/-- Python evaluation of a numeric value expression. -/
def vEval : VExpr → ℚ
  | .num q => q
  | .add a b => vEval a + vEval b

/-- Embedding of the source decode `df['composition'].apply(eval)`
(src/saf.py line 30), restricted to dict-shaped composition texts with
numeric value expressions: `eval` evaluates every value expression,
literal or not. -/
def evalDecode (text : List (String × VExpr)) :
    Option (List (String × ℚ)) :=
  some (text.map (fun p => (p.1, vEval p.2)))

/-- Tests whether a value expression is a plain literal. -/
def literalVal : VExpr → Bool
  | .num _ => true
  | .add _ _ => false

/-- Modelled from the spec: the "strict literal-structure parser (numbers,
strings, mappings, sequences only — no arbitrary expressions)" of §6/§9,
absent from src/; it accepts a dict text only when every value is a plain
literal, and rejects expressions. -/
def literalDecode (text : List (String × VExpr)) :
    Option (List (String × ℚ)) :=
  if text.all (fun p => literalVal p.2) then
    some (text.map (fun p => (p.1, vEval p.2)))
  else none

/-- A record whose unspecified columns are neutral, used to build concrete
record sets. -/
def baseRec : SAFRecord :=
  { fuel_type := "", composition := [], CO2_emission := 0,
    NOx_emission := 0, particulate_matter := 0,
    combustion_efficiency := 0, residue_formation := 0,
    cost_per_unit_reduction := 0, test_conditions := "", thrust := 0,
    range := 0, payload_capacity := 0, compliance_status := "" }

/-- A record of fuel type "B" — selecting "A" over `[recB]` matches zero
records. -/
def recB : SAFRecord := { baseRec with fuel_type := "B" }

/-- First record of the spec's concrete two-record scenario. -/
def scenA1 : SAFRecord :=
  { baseRec with
    fuel_type := "A", compliance_status := "Compliant",
    thrust := 10, range := 20, payload_capacity := 5 }

/-- Second record of the spec's concrete two-record scenario. -/
def scenA2 : SAFRecord :=
  { baseRec with
    fuel_type := "A", compliance_status := "Non-Compliant",
    thrust := 14, range := 24, payload_capacity := 7 }

/-- Two matching records sharing the same `test_conditions` value. -/
def dupA1 : SAFRecord :=
  { baseRec with
    fuel_type := "A", test_conditions := "cruise",
    CO2_emission := 1, NOx_emission := 3, particulate_matter := 5 }

/-- Second record with the duplicate `test_conditions` value. -/
def dupA2 : SAFRecord :=
  { baseRec with
    fuel_type := "A", test_conditions := "cruise",
    CO2_emission := 2, NOx_emission := 4, particulate_matter := 6 }

/-- Two matching records with different compositions, to exercise the
first-match behaviour of the pie chart. -/
def pieA1 : SAFRecord :=
  { baseRec with
    fuel_type := "A",
    composition := [("C8H18", (7 : ℚ) / 10), ("C7H8", (3 : ℚ) / 10)] }

/-- Second matching record, whose composition the pie must ignore. -/
def pieA2 : SAFRecord :=
  { baseRec with fuel_type := "A", composition := [("C2H5OH", 1)] }

/-- A third matching record, used when reordering non-first matches. -/
def pieA3 : SAFRecord :=
  { baseRec with fuel_type := "A", composition := [("H2", (1 : ℚ) / 2)] }

/-- The composition pie depends on the filtered rows only through the first
one: it is `none` exactly when the filter result is empty. -/
theorem update_composition_pie_eq_head (selected_fuel : String)
    (records : List SAFRecord) :
    update_composition_pie selected_fuel records =
      (filterFuel selected_fuel records).head?.map (fun r =>
        { names := r.composition.map Prod.fst,
          values := r.composition.map Prod.snd,
          title := "Chemical Composition of " ++ selected_fuel,
          hole := (3 : ℚ) / 10 }) := by
  cases hf : filterFuel selected_fuel records with
  | nil => simp [update_composition_pie, hf]
  | cons r rest => simp [update_composition_pie, hf]

/-- Membership in the deduplication worker: a value is kept iff it occurs in
the remaining input and was not already seen. -/
theorem mem_pdUniqueAux {a : String} :
    ∀ (l seen : List String),
      a ∈ pdUniqueAux seen l ↔ a ∈ l ∧ a ∉ seen := by
  intro l
  induction l with
  | nil => intro seen; simp [pdUniqueAux]
  | cons x xs ih =>
    intro seen
    by_cases hx : x ∈ seen
    · simp only [pdUniqueAux, if_pos hx, ih, List.mem_cons]
      constructor
      · rintro ⟨h1, h2⟩; exact ⟨Or.inr h1, h2⟩
      · rintro ⟨h1 | h1, h2⟩
        · exact absurd (by rw [h1]; exact hx) h2
        · exact ⟨h1, h2⟩
    · simp only [pdUniqueAux, if_neg hx, List.mem_cons, ih]
      by_cases hax : a = x
      · subst hax
        simp [hx]
      · simp [hax]

/-- The deduplication worker emits no duplicates. -/
theorem nodup_pdUniqueAux :
    ∀ (l seen : List String), (pdUniqueAux seen l).Nodup := by
  intro l
  induction l with
  | nil => intro seen; simp [pdUniqueAux]
  | cons x xs ih =>
    intro seen
    by_cases hx : x ∈ seen
    · simpa only [pdUniqueAux, if_pos hx] using ih seen
    · simp only [pdUniqueAux, if_neg hx]
      refine List.nodup_cons.mpr ⟨?_, ih _⟩
      intro hmem
      exact ((mem_pdUniqueAux _ _).mp hmem).2 (List.mem_cons_self x seen)

/-- Kept values appear in the order of the remaining input. -/
theorem sublist_pdUniqueAux :
    ∀ (l seen : List String), (pdUniqueAux seen l).Sublist l := by
  intro l
  induction l with
  | nil => intro seen; simp [pdUniqueAux]
  | cons x xs ih =>
    intro seen
    by_cases hx : x ∈ seen
    · simp only [pdUniqueAux, if_pos hx]
      exact (ih seen).trans (List.sublist_cons_self x xs)
    · simp only [pdUniqueAux, if_neg hx]
      exact List.Sublist.cons₂ x (ih _)

/-- Prepending a head distinct from both values preserves strict order of
first-occurrence indices. -/
theorem indexOf_lt_of_ne_head {a b x : String} {xs : List String}
    (ha : a ≠ x) (hb : b ≠ x) (h : xs.indexOf a < xs.indexOf b) :
    (x :: xs).indexOf a < (x :: xs).indexOf b := by
  rw [List.indexOf_cons_ne _ (Ne.symm ha), List.indexOf_cons_ne _ (Ne.symm hb)]
  exact Nat.succ_lt_succ h

/-- The deduplication worker lists values by strictly increasing index of
first occurrence in the remaining input. -/
theorem pairwise_pdUniqueAux :
    ∀ (l seen : List String),
      (pdUniqueAux seen l).Pairwise
        (fun a b => l.indexOf a < l.indexOf b) := by
  intro l
  induction l with
  | nil => intro seen; simp [pdUniqueAux]
  | cons x xs ih =>
    intro seen
    by_cases hx : x ∈ seen
    · simp only [pdUniqueAux, if_pos hx]
      refine List.Pairwise.imp_of_mem ?_ (ih seen)
      intro a b hma hmb hab
      have haa := (mem_pdUniqueAux _ _).mp hma
      have hbb := (mem_pdUniqueAux _ _).mp hmb
      have hax : a ≠ x := fun he => haa.2 (by rw [he]; exact hx)
      have hbx : b ≠ x := fun he => hbb.2 (by rw [he]; exact hx)
      exact indexOf_lt_of_ne_head hax hbx hab
    · simp only [pdUniqueAux, if_neg hx]
      refine List.pairwise_cons.mpr ⟨?_, ?_⟩
      · intro b hb
        have hbb := (mem_pdUniqueAux _ _).mp hb
        have hbx : b ≠ x :=
          fun he => hbb.2 (by rw [he]; exact List.mem_cons_self x seen)
        rw [List.indexOf_cons_self, List.indexOf_cons_ne _ (Ne.symm hbx)]
        exact Nat.succ_pos _
      · refine List.Pairwise.imp_of_mem ?_ (ih (x :: seen))
        intro a b hma hmb hab
        have haa := (mem_pdUniqueAux _ _).mp hma
        have hbb := (mem_pdUniqueAux _ _).mp hmb
        have hax : a ≠ x :=
          fun he => haa.2 (by rw [he]; exact List.mem_cons_self x seen)
        have hbx : b ≠ x :=
          fun he => hbb.2 (by rw [he]; exact List.mem_cons_self x seen)
        exact indexOf_lt_of_ne_head hax hbx hab

/-- Membership in `pdUnique` is membership in the input. -/
theorem mem_pdUnique {a : String} {l : List String} :
    a ∈ pdUnique l ↔ a ∈ l := by
  simp [pdUnique, mem_pdUniqueAux]

/-- `pdUnique` returns distinct values. -/
theorem nodup_pdUnique (l : List String) : (pdUnique l).Nodup :=
  nodup_pdUniqueAux l []

/-- `pdUnique` lists values by strictly increasing first-occurrence index. -/
theorem pairwise_pdUnique (l : List String) :
    (pdUnique l).Pairwise (fun a b => l.indexOf a < l.indexOf b) :=
  pairwise_pdUniqueAux l []

/-- C1: the claim requires every filtered view to degrade to an empty chart
specification when zero records match the selection.  Evaluating the code at
the failing input (selected fuel "A" over a record set whose only record has
fuel type "B"): `update_composition_pie` evaluates
`filtered_df['composition'].iloc[0]` and raises `IndexError` (modelled as
`none`) instead of returning an empty chart, while the other filtered views
do degrade to empty data arrays. -/
theorem pie_raises_on_empty_filter :
    update_composition_pie "A" [recB] = none ∧
    (update_emission_graph "A" [recB]).traces.map (fun t => t.x) =
      [[], [], []] ∧
    (update_efficiency_heatmap "A" [recB]).x = [] ∧
    (update_cost_emission_scatter "A" [recB]).x = [] ∧
    (update_compliance_dashboard "A" [recB]).value = 0 := by
  decide

/-- C4: the compliance gauge's value equals the number of matching records
whose `compliance_status` equals "Compliant" — an absolute count (so in
particular it is 0 when no matching record is compliant). -/
theorem gauge_value_eq_compliant_count (selected_fuel : String)
    (records : List SAFRecord) :
    (update_compliance_dashboard selected_fuel records).value =
      ((filterFuel selected_fuel records).filter
        (fun r => r.compliance_status == "Compliant")).length := by
  simp only [update_compliance_dashboard, valueCountsGet, List.countP_map,
    List.countP_eq_length_filter, List.filter_map, List.length_map,
    Function.comp_def]

/-- C10: the compliance gauge's value is a natural number (hence
non-negative) bounded by the number of records matching the selected fuel
type. -/
theorem gauge_value_le_match_count (selected_fuel : String)
    (records : List SAFRecord) :
    (update_compliance_dashboard selected_fuel records).value ≤
      (filterFuel selected_fuel records).length := by
  have h := List.countP_le_length
    (p := fun s => s == "Compliant")
    (l := (filterFuel selected_fuel records).map (·.compliance_status))
  simpa [update_compliance_dashboard, valueCountsGet] using h

/-- C6: for any two selected fuel types, the Lifecycle Sankey outputs agree
on everything except the title — always the fixed 5-node flow with link
values 30/40/20/60 — and the Contrail Prediction Map outputs agree on
everything except the title (always empty data arrays); both functions are
total, so neither raises for any selection. -/
theorem sankey_and_map_fixed (f g : String) :
    (update_lifecycle_sankey f).nodes = (update_lifecycle_sankey g).nodes ∧
    (update_lifecycle_sankey f).source =
      (update_lifecycle_sankey g).source ∧
    (update_lifecycle_sankey f).target =
      (update_lifecycle_sankey g).target ∧
    (update_lifecycle_sankey f).value = (update_lifecycle_sankey g).value ∧
    (update_lifecycle_sankey f).nodes =
      ["Raw Material Extraction", "Production", "Transportation",
       "Combustion", "Total Emissions"] ∧
    (update_lifecycle_sankey f).value = [30, 40, 20, 60] ∧
    (update_contrail_prediction_map f).lat =
      (update_contrail_prediction_map g).lat ∧
    (update_contrail_prediction_map f).lon =
      (update_contrail_prediction_map g).lon ∧
    (update_contrail_prediction_map f).lat = [] ∧
    (update_contrail_prediction_map f).lon = [] :=
  ⟨rfl, rfl, rfl, rfl, rfl, rfl, rfl, rfl, rfl, rfl⟩

/-- C5 (counterexample): with two matching records sharing the same
`test_conditions` value "cruise", each bar trace has 2 entries while the
number of distinct `test_conditions` values among the matching records
is 1 — the entry count does not equal the distinct-conditions count. -/
theorem emission_bar_entries_cex :
    (update_emission_graph "A" [dupA1, dupA2]).traces.map
        (fun t => t.x.length) = [2, 2, 2] ∧
    (pdUnique ((filterFuel "A" [dupA1, dupA2]).map
        (·.test_conditions))).length = 1 ∧
    (update_emission_graph "A" [dupA1, dupA2]).traces.map
        (fun t => t.x.length) ≠
      [(pdUnique ((filterFuel "A" [dupA1, dupA2]).map
          (·.test_conditions))).length,
       (pdUnique ((filterFuel "A" [dupA1, dupA2]).map
          (·.test_conditions))).length,
       (pdUnique ((filterFuel "A" [dupA1, dupA2]).map
          (·.test_conditions))).length] := by
  decide

/-- C5 (amended): the Emission Bar figure has exactly three grouped-bar
traces (CO2, NOx, particulate matter); each trace lists one entry per
matching record — `test_conditions` as x, the respective emission column as
y — with no aggregation, so the entry count equals the number of matching
records (not the number of distinct conditions). -/
theorem emission_bar_lists_per_record (selected_fuel : String)
    (records : List SAFRecord) :
    (update_emission_graph selected_fuel records).traces.length = 3 ∧
    (update_emission_graph selected_fuel records).traces.map
        (fun t => t.x) =
      [(filterFuel selected_fuel records).map (·.test_conditions),
       (filterFuel selected_fuel records).map (·.test_conditions),
       (filterFuel selected_fuel records).map (·.test_conditions)] ∧
    (update_emission_graph selected_fuel records).traces.map
        (fun t => t.y) =
      [(filterFuel selected_fuel records).map (·.CO2_emission),
       (filterFuel selected_fuel records).map (·.NOx_emission),
       (filterFuel selected_fuel records).map (·.particulate_matter)] ∧
    (update_emission_graph selected_fuel records).traces.map
        (fun t => t.x.length) =
      [(filterFuel selected_fuel records).length,
       (filterFuel selected_fuel records).length,
       (filterFuel selected_fuel records).length] := by
  refine ⟨rfl, rfl, rfl, ?_⟩
  simp [update_emission_graph]

/-- C7: the claim asserts the composition decoder is equivalent to a strict
literal-structure parser.  Evaluating the code at the failing input — the
stored composition text for the dict with one key "HEFA" whose value is the
expression `1+1` — the source's `eval`-based decoder accepts it and
evaluates the expression to 2, while a strict literal-structure parser
rejects it, so the two are not equivalent and the source decoder performs
arbitrary expression evaluation. -/
theorem eval_decode_not_literal :
    evalDecode [("HEFA", VExpr.add (VExpr.num 1) (VExpr.num 1))] =
      some [("HEFA", 2)] ∧
    literalDecode [("HEFA", VExpr.add (VExpr.num 1) (VExpr.num 1))] =
      none := by
  constructor
  · show some [("HEFA", (1 : ℚ) + 1)] = some [("HEFA", 2)]
    norm_num
  · rfl

/-- C2: when at least one record matches the selected fuel type, the
Composition Pie's slices are exactly the entries (one slice per key, with
that key's value) of the composition mapping of the first matching record
in record order — not an aggregate across matches. -/
theorem pie_slices_are_first_match_entries (selected_fuel : String)
    (records : List SAFRecord) (r : SAFRecord) (rest : List SAFRecord)
    (h : filterFuel selected_fuel records = r :: rest) :
    ∃ fig, update_composition_pie selected_fuel records = some fig ∧
      fig.names = r.composition.map Prod.fst ∧
      fig.values = r.composition.map Prod.snd ∧
      fig.names.zip fig.values = r.composition := by
  refine ⟨{ names := r.composition.map Prod.fst,
            values := r.composition.map Prod.snd,
            title := "Chemical Composition of " ++ selected_fuel,
            hole := (3 : ℚ) / 10 }, ?_, rfl, rfl, ?_⟩
  · simp [update_composition_pie, h]
  · rw [List.zip_map']
    simp

/-- Witness for C2 at a concrete input: two matching records with different
compositions; the pie shows the first record's entries. -/
theorem pie_slices_witness :
    filterFuel "A" [pieA1, pieA2] = pieA1 :: [pieA2] ∧
    ∃ fig, update_composition_pie "A" [pieA1, pieA2] = some fig ∧
      fig.names = pieA1.composition.map Prod.fst ∧
      fig.values = pieA1.composition.map Prod.snd ∧
      fig.names.zip fig.values = pieA1.composition :=
  ⟨rfl, pie_slices_are_first_match_entries "A" [pieA1, pieA2] pieA1 [pieA2]
    rfl⟩

/-- C3: when at least one record matches the selected fuel type, the Flight
Performance Radar's three values are the arithmetic means of `thrust`,
`range` and `payload_capacity` over exactly the matching records. -/
theorem radar_values_are_means (selected_fuel : String)
    (records : List SAFRecord)
    (h : filterFuel selected_fuel records ≠ []) :
    (update_flight_performance_radar selected_fuel records).r =
      [some (((filterFuel selected_fuel records).map (·.thrust)).sum /
          ((filterFuel selected_fuel records).length : ℚ)),
       some (((filterFuel selected_fuel records).map (·.range)).sum /
          ((filterFuel selected_fuel records).length : ℚ)),
       some (((filterFuel selected_fuel records).map
            (·.payload_capacity)).sum /
          ((filterFuel selected_fuel records).length : ℚ))] := by
  simp [update_flight_performance_radar, seriesMean, List.isEmpty_iff, h]

/-- Witness for C3 at the spec's concrete two-record scenario: thrust 10/14,
range 20/24, payload 5/7 give radar values (12, 22, 6). -/
theorem radar_values_witness :
    filterFuel "A" [scenA1, scenA2] ≠ [] ∧
    (update_flight_performance_radar "A" [scenA1, scenA2]).r =
      [some 12, some 22, some 6] := by
  have hf : filterFuel "A" [scenA1, scenA2] = [scenA1, scenA2] := rfl
  constructor
  · rw [hf]; exact List.cons_ne_nil _ _
  · have h := radar_values_are_means "A" [scenA1, scenA2]
      (by rw [hf]; exact List.cons_ne_nil _ _)
    rw [h, hf]
    norm_num [scenA1, scenA2, baseRec]

/-- C8: on a non-empty record set the dropdown initializes: its options are
exactly the distinct `fuel_type` values of the record set (no duplicates,
same membership) in first-seen order (strictly increasing first-occurrence
index), the default value is the first option, and the dropdown is
single-select (`multi = false`) and non-clearable (`clearable = false`). -/
theorem dropdown_options_first_seen (records : List SAFRecord)
    (h : records ≠ []) :
    ∃ d, layoutDropdown records = some d ∧
      d.options = pdUnique (records.map (·.fuel_type)) ∧
      d.options.Nodup ∧
      (∀ s, s ∈ d.options ↔ s ∈ records.map (·.fuel_type)) ∧
      d.options.Pairwise (fun a b =>
        (records.map (·.fuel_type)).indexOf a <
          (records.map (·.fuel_type)).indexOf b) ∧
      d.options.head? = some d.value ∧
      d.multi = false ∧ d.clearable = false := by
  cases records with
  | nil => exact absurd rfl h
  | cons r rest =>
    have hcol : pdUnique (r.fuel_type :: rest.map (·.fuel_type)) =
        r.fuel_type ::
          pdUniqueAux [r.fuel_type] (rest.map (·.fuel_type)) := by
      simp [pdUnique, pdUniqueAux]
    refine ⟨{ options := r.fuel_type ::
                pdUniqueAux [r.fuel_type] (rest.map (·.fuel_type)),
              value := r.fuel_type, multi := false, clearable := false },
            ?_, ?_, ?_, ?_, ?_, rfl, rfl, rfl⟩
    · simp only [layoutDropdown, List.map_cons, hcol]
    · simp only [List.map_cons]; exact hcol.symm
    · simp only [List.map_cons]; rw [← hcol]; exact nodup_pdUnique _
    · intro s; simp only [List.map_cons]; rw [← hcol]; exact mem_pdUnique
    · simp only [List.map_cons]; rw [← hcol]; exact pairwise_pdUnique _

/-- Witness for C8 at a concrete input: two records with fuel types "B" and
"A" in that order. -/
theorem dropdown_witness :
    ([recB, scenA1] : List SAFRecord) ≠ [] ∧
    ∃ d, layoutDropdown [recB, scenA1] = some d ∧
      d.options = pdUnique (([recB, scenA1] : List SAFRecord).map
        (·.fuel_type)) ∧
      d.options.Nodup ∧
      (∀ s, s ∈ d.options ↔
        s ∈ ([recB, scenA1] : List SAFRecord).map (·.fuel_type)) ∧
      d.options.Pairwise (fun a b =>
        (([recB, scenA1] : List SAFRecord).map (·.fuel_type)).indexOf a <
          (([recB, scenA1] : List SAFRecord).map
            (·.fuel_type)).indexOf b) ∧
      d.options.head? = some d.value ∧
      d.multi = false ∧ d.clearable = false :=
  ⟨List.cons_ne_nil _ _,
   dropdown_options_first_seen [recB, scenA1] (List.cons_ne_nil _ _)⟩

/-- C9: the Composition Pie output is unchanged by any permutation of the
record set that keeps the same first matching record, and its slice values
sum to the total of that first record's composition mapping. -/
theorem pie_invariant_under_reordering (selected_fuel : String)
    (records records2 : List SAFRecord)
    (hperm : records.Perm records2)
    (hhead : (filterFuel selected_fuel records).head? =
      (filterFuel selected_fuel records2).head?)
    (r : SAFRecord)
    (hr : (filterFuel selected_fuel records).head? = some r) :
    update_composition_pie selected_fuel records =
      update_composition_pie selected_fuel records2 ∧
    ∃ fig, update_composition_pie selected_fuel records = some fig ∧
      fig.values.sum = (r.composition.map Prod.snd).sum := by
  constructor
  · rw [update_composition_pie_eq_head, update_composition_pie_eq_head,
      hhead]
  · refine ⟨{ names := r.composition.map Prod.fst,
              values := r.composition.map Prod.snd,
              title := "Chemical Composition of " ++ selected_fuel,
              hole := (3 : ℚ) / 10 }, ?_, rfl⟩
    rw [update_composition_pie_eq_head, hr]
    rfl

/-- Witness for C9 at a concrete input: swapping the second and third
matching records leaves the pie unchanged. -/
theorem pie_invariant_witness :
    ([pieA1, pieA2, pieA3] : List SAFRecord).Perm [pieA1, pieA3, pieA2] ∧
    (filterFuel "A" [pieA1, pieA2, pieA3]).head? =
      (filterFuel "A" [pieA1, pieA3, pieA2]).head? ∧
    (filterFuel "A" [pieA1, pieA2, pieA3]).head? = some pieA1 ∧
    (update_composition_pie "A" [pieA1, pieA2, pieA3] =
      update_composition_pie "A" [pieA1, pieA3, pieA2] ∧
     ∃ fig, update_composition_pie "A" [pieA1, pieA2, pieA3] = some fig ∧
       fig.values.sum = (pieA1.composition.map Prod.snd).sum) :=
  ⟨List.Perm.cons pieA1 (List.Perm.swap pieA3 pieA2 []), rfl, rfl,
   pie_invariant_under_reordering "A" [pieA1, pieA2, pieA3]
     [pieA1, pieA3, pieA2]
     (List.Perm.cons pieA1 (List.Perm.swap pieA3 pieA2 [])) rfl pieA1 rfl⟩

end SAF
